import Mathlib

/-!
Shallow embedding of `src/legacy/src/dnn_backend/pack_unpack.cpp`
(DiHydrogen / distconv GPU dnn backend tensor pack/unpack layer).

Modelling conventions:
* C `int` values (tensor dims and strides) are `Int`; where the 32-bit truncation of the source matters (`MyTensorDesc::memory_size`, `allocate`) the
  wrap-around is written explicitly with `% 2^32` (`wrap32`) and the
  `int -> size_t` conversion with `% 2^64`.
* Raw device pointers are `Nat` (`0` plays the role of `nullptr`), and
  backend tensor-descriptor handles (`TensorDescriptor_t`) are `Nat`
  compared by handle equality, exactly as the source compares them.
* The C string returned by `getenv` is `Option (List Char)` (`none` when
  the variable is unset).
* Host scale factors (`double` passed through `make_host_scalar`) are `Rat`;
  the only comparison the source performs on them is `beta != 0.`, which is
  exact, and the concrete scales used are 1.0 and 0.0, both exactly
  representable, so no floating-point rounding is observable here.
* Calls into the external backend / allocator are recorded as an `Event`
  trace; the fallible backend copy (`copy_tensor`, which can throw a
  backend runtime error) is driven by an explicit `copyOk : Bool` oracle.
  A C++ function that throws is modelled as returning `none` together with
  the events it had already issued before throwing.
* `std::uncaught_exceptions()` in the write-proxy destructor is the
  explicit `unwinding : Bool` parameter.
-/

/-- Element data types supported by the backend dispatch in the source
(`CUDNN_DATA_HALF/FLOAT/DOUBLE`). -/
inductive DataType where
  | F16 : DataType
  | F32 : DataType
  | F64 : DataType
deriving DecidableEq, Repr

/-- Embeds `datatype_size` (pack_unpack.cpp, CUDA branch):
`sizeof(short) = 2`, `sizeof(float) = 4`, `sizeof(double) = 8`.
The unsupported-type `throw` branch is unreachable over this enum. -/
def datatype_size : DataType → Nat
  | DataType.F16 => 2
  | DataType.F32 => 4
  | DataType.F64 => 8

/-- Wrap (two-complement style) of an integer into the signed 32-bit range,
modelling C `int` multiplication overflow behaviour. -/
def wrap32 (x : Int) : Int :=
  (x + 2 ^ 31) % 2 ^ 32 - 2 ^ 31

/-- Conversion of a (possibly negative) C `int` value to `size_t`
(unsigned 64-bit): reduction mod `2^64`. -/
def intToSizeT (x : Int) : Nat :=
  (x % 2 ^ 64).toNat

/-- Embeds the byte-size expression `dims[0] * strides[0] * datatype_size(dt)`
shared by `MyTensorDesc::memory_size` and `allocate` (pack_unpack.cpp):
the product `dims[0] * strides[0]` is evaluated in `int` arithmetic
(32-bit, wrapping), then converted to `size_t` and multiplied by the
element size in `size_t` (64-bit) arithmetic. -/
def memory_size (dt : DataType) (dims strides : List Int) : Nat :=
  intToSizeT (wrap32 (dims.headI * strides.headI)) * datatype_size dt % 2 ^ 64

/-- Embeds `is_fully_packed` (pack_unpack.cpp): `strides.front() ==
std::accumulate(next(dims.cbegin()), dims.cend(), 1, multiplies<int>{})`,
i.e. the leading stride equals the left fold of `*` over `dims[1:]` with
initial value 1.  `front()` requires a non-empty vector, so only layouts
with `ndims >= 1` are in the domain of the function. -/
def is_fully_packed (dims strides : List Int) : Bool :=
  strides.headI == dims.tail.foldl (· * ·) 1

/-- Embeds `get_fully_packed_strides` (pack_unpack.cpp): the source fills
`strides` with 1 and then runs a backward `std::partial_sum` with
multiplication over the reversed dims, producing `strides[i] =
dims[i+1] * dims[i+2] * ... * dims[ndims-1]` with `strides[ndims-1] = 1`.
This recursion computes the same list: each position holds the product of
the dims strictly after it. -/
def get_fully_packed_strides : List Int → List Int
  | [] => []
  | _ :: rest => rest.foldl (· * ·) 1 :: get_fully_packed_strides rest

/-- Embeds the body of the initialization lambda in `do_pack_unpack`
(pack_unpack.cpp): `tf` starts as the platform default (`true` on ROCm,
`false` otherwise); if `getenv` returned a string, `tf` becomes
`strlen(env) && env[0] != '0'` — non-empty and first character not `'0'`. -/
def do_pack_unpack_compute (rocm : Bool) (env : Option (List Char)) : Bool :=
  match env with
  | none => rocm
  | some s => !s.isEmpty && s.headI != '0'

/-- Embeds the `static bool const val = [...]();` caching in
`do_pack_unpack`: the first call evaluates the lambda and stores the
result; every later call returns the stored value, ignoring the current
environment.  State is `Option Bool` (`none` before first use); the
function returns the value produced together with the updated state. -/
def do_pack_unpack_call (cache : Option Bool) (rocm : Bool)
    (env : Option (List Char)) : Bool × Option Bool :=
  match cache with
  | some v => (v, some v)
  | none => (do_pack_unpack_compute rocm env, some (do_pack_unpack_compute rocm env))

/-- Embeds `MyTensorDesc` (pack_unpack.cpp): element datatype plus dims and
strides vectors. -/
structure MyTensorDesc where
  dt : DataType
  dims : List Int
  strides : List Int
deriving DecidableEq, Repr

/-- Calls the proxies issue to external collaborators (backend descriptor
API, backend copy-transform, caching device allocator), recorded as a
trace.  Scale factors are the `double` values fed to `make_host_scalar`. -/
inductive Event where
  | makeDesc (desc : Nat) : Event
  | deviceAllocate (bytes : Nat) (ptr : Nat) : Event
  | copyTensor (alpha beta : Rat) (srcDesc srcData dstDesc dstData : Nat) : Event
  | deviceFree (ptr : Nat) : Event
  | destroyDesc (desc : Nat) : Event
deriving DecidableEq, Repr

/-- Embeds `get_packed_desc` (pack_unpack.cpp): if the layout of the descriptor
is already fully packed the input handle itself is returned; otherwise a
fresh backend descriptor handle (`fresh`, standing for the handle
`make_backend_desc` creates) is set up with the same dims and fully packed
strides.  Returns the resulting handle, its layout details, and the
descriptor-creation events issued. -/
def get_packed_desc (desc : Nat) (d : MyTensorDesc) (fresh : Nat) :
    Nat × MyTensorDesc × List Event :=
  if is_fully_packed d.dims d.strides then (desc, d, [])
  else
    (fresh, ⟨d.dt, d.dims, get_fully_packed_strides d.dims⟩, [Event.makeDesc fresh])

/-- Members of `PackedTensorReadProxy`, as written by its constructors in
pack_unpack.cpp. -/
structure PackedTensorReadProxy where
  m_unpacked_desc : Nat
  m_packed_desc : Nat
  m_unpacked_data : Nat
  m_packed_data : Nat
deriving DecidableEq, Repr

/-- Embeds `PackedTensorReadProxy::PackedTensorReadProxy(unpacked_desc,
force)` (descriptor-only overload, pack_unpack.cpp lines 313-322): data
members start at `nullptr`; when `force || do_pack_unpack()` holds the
packed descriptor is computed by `get_packed_desc`, else it stays aliased
to the source handle.  `global` is the value of `do_pack_unpack()`. -/
def PackedTensorReadProxy.ctorDescOnly (unpacked_desc : Nat) (d : MyTensorDesc)
    (global force : Bool) (freshDesc : Nat) :
    PackedTensorReadProxy × List Event :=
  if force || global then
    let r := get_packed_desc unpacked_desc d freshDesc
    (⟨unpacked_desc, r.1, 0, 0⟩, r.2.2)
  else
    (⟨unpacked_desc, unpacked_desc, 0, 0⟩, [])

/-- Embeds `PackedTensorReadProxy::PackedTensorReadProxy(handle,
unpacked_desc, unpacked_data, force)` (buffer-materializing overload,
pack_unpack.cpp lines 324-350).  When the packed handle differs from the
source handle it allocates (`allocate`: `dims[0] * strides[0] *
datatype_size(dt)` bytes for the layout of the packed descriptor; `freshPtr`
stands for the pointer the allocator returns) and issues the copy-in with
scales 1.0 / 0.0.  `copyOk` drives the fallible backend copy: when it is
`false` the constructor throws after the copy call, modelled as `none`;
the events already issued remain in the trace. -/
def PackedTensorReadProxy.ctorData (unpacked_desc : Nat) (d : MyTensorDesc)
    (unpacked_data : Nat) (global force : Bool)
    (freshDesc freshPtr : Nat) (copyOk : Bool) :
    Option PackedTensorReadProxy × List Event :=
  let s :=
    if force || global then get_packed_desc unpacked_desc d freshDesc
    else (unpacked_desc, d, [])
  let packed_desc := s.1
  let pd := s.2.1
  let ev0 := s.2.2
  if unpacked_desc == packed_desc then
    (some ⟨unpacked_desc, packed_desc, unpacked_data, unpacked_data⟩, ev0)
  else
    let bytes := memory_size pd.dt pd.dims pd.strides
    let ev := ev0 ++ [Event.deviceAllocate bytes freshPtr,
                      Event.copyTensor 1 0 unpacked_desc unpacked_data packed_desc freshPtr]
    if copyOk then
      (some ⟨unpacked_desc, packed_desc, unpacked_data, freshPtr⟩, ev)
    else
      (none, ev)

/-- Embeds `PackedTensorReadProxy::~PackedTensorReadProxy` (pack_unpack.cpp
lines 352-366): free the packed buffer when it is distinct from the source
buffer and non-null; destroy the packed descriptor when it is distinct
from the source descriptor. -/
def PackedTensorReadProxy.dtor (p : PackedTensorReadProxy) : List Event :=
  (if p.m_packed_data != p.m_unpacked_data && p.m_packed_data != 0 then
    [Event.deviceFree p.m_packed_data]
  else [])
  ++ (if p.m_unpacked_desc != p.m_packed_desc then
    [Event.destroyDesc p.m_packed_desc]
  else [])

/-- Members of `PackedTensorWriteProxy`, as written by its constructors in
pack_unpack.cpp.  In the aliased branch the source leaves `m_dt` at its
member default (the source notes dt is not needed there); the model uses `F32` for
that default, and no event ever depends on it in the aliased state. -/
structure PackedTensorWriteProxy where
  m_unpacked_desc : Nat
  m_packed_desc : Nat
  m_unpacked_data : Nat
  m_packed_data : Nat
  m_dt : DataType
  m_handle : Nat
deriving DecidableEq, Repr

/-- Embeds `PackedTensorWriteProxy::PackedTensorWriteProxy(unpacked_desc,
force)` (descriptor-only overload, pack_unpack.cpp lines 370-379). -/
def PackedTensorWriteProxy.ctorDescOnly (unpacked_desc : Nat) (d : MyTensorDesc)
    (global force : Bool) (freshDesc : Nat) :
    PackedTensorWriteProxy × List Event :=
  if force || global then
    let r := get_packed_desc unpacked_desc d freshDesc
    (⟨unpacked_desc, r.1, 0, 0, DataType.F32, 0⟩, r.2.2)
  else
    (⟨unpacked_desc, unpacked_desc, 0, 0, DataType.F32, 0⟩, [])

/-- Embeds `PackedTensorWriteProxy::PackedTensorWriteProxy(handle,
unpacked_desc, unpacked_data, beta, force)` (buffer-materializing
overload, pack_unpack.cpp lines 381-414): when owned, allocate the packed
buffer, then issue the seeding copy-in (scales 1.0 / 0.0) only when
`beta != 0.`; `copyOk = false` makes that copy throw (`none`). -/
def PackedTensorWriteProxy.ctorData (handle unpacked_desc : Nat) (d : MyTensorDesc)
    (unpacked_data : Nat) (beta : Rat) (global force : Bool)
    (freshDesc freshPtr : Nat) (copyOk : Bool) :
    Option PackedTensorWriteProxy × List Event :=
  let s :=
    if force || global then get_packed_desc unpacked_desc d freshDesc
    else (unpacked_desc, d, [])
  let packed_desc := s.1
  let pd := s.2.1
  let ev0 := s.2.2
  if unpacked_desc == packed_desc then
    (some ⟨unpacked_desc, packed_desc, unpacked_data, unpacked_data, DataType.F32, handle⟩, ev0)
  else
    let bytes := memory_size pd.dt pd.dims pd.strides
    let ev1 := ev0 ++ [Event.deviceAllocate bytes freshPtr]
    if beta != 0 then
      let ev2 := ev1 ++ [Event.copyTensor 1 0 unpacked_desc unpacked_data packed_desc freshPtr]
      if copyOk then
        (some ⟨unpacked_desc, packed_desc, unpacked_data, freshPtr, pd.dt, handle⟩, ev2)
      else
        (none, ev2)
    else
      (some ⟨unpacked_desc, packed_desc, unpacked_data, freshPtr, pd.dt, handle⟩, ev1)

/-- The descriptor-teardown tail shared by both branches at the end of
`PackedTensorWriteProxy::~PackedTensorWriteProxy` (pack_unpack.cpp lines
451-452): destroy the packed descriptor iff it differs from the source
descriptor. -/
def PackedTensorWriteProxy.descTeardown (p : PackedTensorWriteProxy) : List Event :=
  if p.m_unpacked_desc != p.m_packed_desc then [Event.destroyDesc p.m_packed_desc] else []

/-- Embeds `PackedTensorWriteProxy::~PackedTensorWriteProxy`
(pack_unpack.cpp lines 432-455), following its control flow exactly:
when the packed buffer is distinct from the source buffer and non-null,
and `std::uncaught_exceptions()` reports no unwinding in progress
(`unwinding = false`), the write-back copy (scales 1.0 / 0.0, packed to
unpacked) is issued; if that copy throws (`copyOk = false`) the exception
leaves the destructor at that point and no further statement runs.
Otherwise the buffer is freed and the descriptor teardown runs.  Returns
the events issued and whether an exception escaped. -/
def PackedTensorWriteProxy.dtor (p : PackedTensorWriteProxy)
    (unwinding copyOk : Bool) : List Event × Bool :=
  if p.m_unpacked_data != p.m_packed_data && p.m_packed_data != 0 then
    if !unwinding then
      let ev := [Event.copyTensor 1 0 p.m_packed_desc p.m_packed_data
                  p.m_unpacked_desc p.m_unpacked_data]
      if copyOk then
        (ev ++ [Event.deviceFree p.m_packed_data] ++ p.descTeardown, false)
      else
        (ev, true)
    else
      ([Event.deviceFree p.m_packed_data] ++ p.descTeardown, false)
  else
    (p.descTeardown, false)

/-- Modelled from the spec: the element-wise contract of the backend
copy-transform (spec section 6, implemented outside this repository by
`cudnnTransformTensor` / `do_gpu_tensor_repack`):
`dst = scale_in * src + scale_out * dst`. -/
def transform_contents (scale_in scale_out : Rat) (src dst : Rat) : Rat :=
  scale_in * src + scale_out * dst

/-- A write proxy is in the owned state when the packed buffer was
allocated distinct from the source buffer; the synthetic packed
descriptor is then also distinct from the source descriptor. -/
def PackedTensorWriteProxy.owned (p : PackedTensorWriteProxy) : Prop :=
  p.m_packed_data ≠ p.m_unpacked_data ∧ p.m_packed_data ≠ 0 ∧
    p.m_packed_desc ≠ p.m_unpacked_desc

/-! Helper lemmas shared by several theorems. -/

/-- The left fold of multiplication with initial value 1 (the shape of
`std::accumulate` with `std::multiplies`) is the list product. -/
theorem foldl_mul_one (l : List Int) : l.foldl (· * ·) 1 = l.prod :=
  List.prod_eq_foldl.symm

/-- `get_fully_packed_strides` preserves length. -/
theorem get_fully_packed_strides_length (dims : List Int) :
    (get_fully_packed_strides dims).length = dims.length := by
  induction dims with
  | nil => rfl
  | cons d rest ih => simp [get_fully_packed_strides, ih]

/-- Entry `i` of `get_fully_packed_strides dims` is the product of the
dims strictly after position `i`. -/
theorem get_fully_packed_strides_getD (dims : List Int) (i : Nat)
    (h : i < dims.length) :
    (get_fully_packed_strides dims).getD i 0 = (dims.drop (i + 1)).prod := by
  induction dims generalizing i with
  | nil => simp at h
  | cons d rest ih =>
    cases i with
    | zero =>
      simp [get_fully_packed_strides, foldl_mul_one]
    | succ j =>
      have hj : j < rest.length := by simpa using h
      simpa [get_fully_packed_strides] using ih j hj


/-! Claim theorems. -/

/-- C6 (counterexample): the claim states that degenerate 1-d tensors are
treated as packed; the code instead compares the single stride against
the empty product 1, so a 1-d layout with dims `[4]` and strides `[2]`
(non-empty, not the canonical stride) is reported as NOT packed. -/
theorem is_fully_packed_one_dim_counterexample :
    is_fully_packed [4] [2] = false ∧ ([2] : List Int) ≠ [] := by
  exact ⟨by decide, by decide⟩

/-- C6 (amended): for every layout with at least one dimension,
`is_fully_packed` returns exactly the test `strides[0] = product(dims[1:])`;
it is true for dims `[2,3,4]` with strides `[12,4,1]` and false with
strides `[16,4,1]`; a 1-d tensor is packed iff its stride is 1 (the
product over the empty range being 1); 0-d tensors are outside the domain
(`front()` of an empty vector). -/
theorem is_fully_packed_ok (dims strides : List Int) (h : dims ≠ []) :
    (is_fully_packed dims strides = true ↔ strides.headI = dims.tail.prod)
    ∧ is_fully_packed [2, 3, 4] [12, 4, 1] = true
    ∧ is_fully_packed [2, 3, 4] [16, 4, 1] = false
    ∧ (∀ d s : Int, is_fully_packed [d] [s] = true ↔ s = 1) := by
  refine ⟨?_, by decide, by decide, ?_⟩
  · simp [is_fully_packed, foldl_mul_one]
  · intro d s
    simp [is_fully_packed]

/-- C6 witness: the amended theorem instantiated at dims `[5,7]`,
strides `[7,1]`. -/
theorem is_fully_packed_ok_witness :
    (is_fully_packed [5, 7] [7, 1] = true
      ↔ ([7, 1] : List Int).headI = ([5, 7] : List Int).tail.prod)
    ∧ is_fully_packed [2, 3, 4] [12, 4, 1] = true
    ∧ is_fully_packed [2, 3, 4] [16, 4, 1] = false
    ∧ (∀ d s : Int, is_fully_packed [d] [s] = true ↔ s = 1) :=
  is_fully_packed_ok [5, 7] [7, 1] (by decide)

/-- C7: for every non-empty dims list, `get_fully_packed_strides` has the
same length as dims, its last entry is 1, and it satisfies the backward
running product `strides[i] = strides[i+1] * dims[i+1]` at every interior
position `i`; for dims `[2,3,4]` it yields `[12,4,1]`. -/
theorem get_fully_packed_strides_ok (dims : List Int) (i : Nat)
    (hne : dims ≠ []) (hi : i + 1 < dims.length) :
    (get_fully_packed_strides dims).length = dims.length
    ∧ (get_fully_packed_strides dims).getD (dims.length - 1) 0 = 1
    ∧ (get_fully_packed_strides dims).getD i 0
        = (get_fully_packed_strides dims).getD (i + 1) 0 * dims.getD (i + 1) 0
    ∧ get_fully_packed_strides [2, 3, 4] = [12, 4, 1] := by
  have hlen : 0 < dims.length := List.length_pos.mpr hne
  refine ⟨get_fully_packed_strides_length dims, ?_, ?_, by decide⟩
  · rw [get_fully_packed_strides_getD dims (dims.length - 1) (by omega)]
    have : dims.length - 1 + 1 = dims.length := by omega
    rw [this, List.drop_length]
    rfl
  · rw [get_fully_packed_strides_getD dims i (by omega),
        get_fully_packed_strides_getD dims (i + 1) hi]
    have hdrop : dims.drop (i + 1) = dims[i + 1] :: dims.drop (i + 2) :=
      List.drop_eq_getElem_cons hi
    rw [hdrop, List.prod_cons, List.getD_eq_getElem dims 0 hi]
    ring

/-- C7 witness: the theorem instantiated at dims `[2,3,4]`, position 0. -/
theorem get_fully_packed_strides_ok_witness :
    (get_fully_packed_strides [2, 3, 4]).length = ([2, 3, 4] : List Int).length
    ∧ (get_fully_packed_strides [2, 3, 4]).getD (([2, 3, 4] : List Int).length - 1) 0 = 1
    ∧ (get_fully_packed_strides [2, 3, 4]).getD 0 0
        = (get_fully_packed_strides [2, 3, 4]).getD 1 0 * ([2, 3, 4] : List Int).getD 1 0
    ∧ get_fully_packed_strides [2, 3, 4] = [12, 4, 1] :=
  get_fully_packed_strides_ok [2, 3, 4] 0 (by decide) (by decide)

/-- C4 (counterexample): the claim states every present value other than
the empty string and "0" yields true; the code only tests the FIRST
character, so the value "01" (non-empty and different from "0") yields
false on both platform defaults. -/
theorem do_pack_unpack_counterexample :
    do_pack_unpack_compute false (some ['0', '1']) = false
    ∧ do_pack_unpack_compute true (some ['0', '1']) = false
    ∧ (['0', '1'] : List Char) ≠ []
    ∧ (['0', '1'] : List Char) ≠ ['0'] := by
  exact ⟨rfl, rfl, by decide, by decide⟩

/-- C4 (amended): variable absent yields the platform default (true on
ROCm, false otherwise); a present value yields true iff it is non-empty
and its first character is not the character zero (so the empty string,
"0", and any string starting with the character zero yield false); and
the cached value is fixed at first use: a second call sees the cache and
returns the first value no matter what the variable holds then. -/
theorem do_pack_unpack_ok (rocm : Bool) (s : List Char)
    (env env2 : Option (List Char)) :
    do_pack_unpack_compute rocm none = rocm
    ∧ (do_pack_unpack_compute rocm (some s) = true ↔ s ≠ [] ∧ s.headI ≠ '0')
    ∧ (do_pack_unpack_call none rocm env).1 = do_pack_unpack_compute rocm env
    ∧ (do_pack_unpack_call (do_pack_unpack_call none rocm env).2 rocm env2).1
        = (do_pack_unpack_call none rocm env).1 := by
  refine ⟨rfl, ?_, rfl, rfl⟩
  cases s with
  | nil => simp [do_pack_unpack_compute]
  | cons c cs => simp [do_pack_unpack_compute]

/-- C4 witness: the amended theorem instantiated at the ROCm default and
the value "1", with a mutation to "0" after first use. -/
theorem do_pack_unpack_ok_witness :
    do_pack_unpack_compute true none = true
    ∧ (do_pack_unpack_compute true (some ['1']) = true
        ↔ (['1'] : List Char) ≠ [] ∧ (['1'] : List Char).headI ≠ '0')
    ∧ (do_pack_unpack_call none true (some ['1'])).1
        = do_pack_unpack_compute true (some ['1'])
    ∧ (do_pack_unpack_call (do_pack_unpack_call none true (some ['1'])).2
          true (some ['0'])).1
        = (do_pack_unpack_call none true (some ['1'])).1 :=
  do_pack_unpack_ok true ['1'] (some ['1']) (some ['0'])

/-- C5 (counterexample): the claim states force = false aliases the proxy
to the source descriptor even when the process-wide decision is true; in
the code the condition is `force || do_pack_unpack()`, so with force =
false, the process-wide decision true, and a non-packed layout (dims
`[2,3,4]`, strides `[16,4,1]`), the read proxy still repacks: its packed
descriptor is the fresh handle 2, not the source handle 1. -/
theorem force_override_counterexample :
    (PackedTensorReadProxy.ctorDescOnly 1 ⟨DataType.F32, [2, 3, 4], [16, 4, 1]⟩
        true false 2).1.m_packed_desc = 2
    ∧ (2 : Nat) ≠ 1 := by
  exact ⟨rfl, by decide⟩

/-- C5 (amended): the packing decision is the disjunction of the explicit
override and the process-wide decision: force = true attempts repacking
regardless of the process-wide value, and force = false defers to the
process-wide decision (it cannot disable packing when that decision is
true).  Shown on the descriptor-only constructors of both proxies over a
non-packed layout. -/
theorem force_override_ok (udesc : Nat) (d : MyTensorDesc) (g : Bool)
    (freshDesc : Nat) (hnp : is_fully_packed d.dims d.strides = false) :
    (PackedTensorReadProxy.ctorDescOnly udesc d g true freshDesc).1.m_packed_desc
        = freshDesc
    ∧ (PackedTensorWriteProxy.ctorDescOnly udesc d g true freshDesc).1.m_packed_desc
        = freshDesc
    ∧ (PackedTensorReadProxy.ctorDescOnly udesc d false false freshDesc).1.m_packed_desc
        = udesc
    ∧ (PackedTensorWriteProxy.ctorDescOnly udesc d false false freshDesc).1.m_packed_desc
        = udesc
    ∧ (PackedTensorReadProxy.ctorDescOnly udesc d true false freshDesc).1.m_packed_desc
        = freshDesc
    ∧ (PackedTensorWriteProxy.ctorDescOnly udesc d true false freshDesc).1.m_packed_desc
        = freshDesc := by
  refine ⟨?_, ?_, rfl, rfl, ?_, ?_⟩ <;>
    simp [PackedTensorReadProxy.ctorDescOnly, PackedTensorWriteProxy.ctorDescOnly,
          get_packed_desc, hnp]

/-- C5 witness: the amended theorem instantiated at the non-packed layout
dims `[2,3,4]`, strides `[16,4,1]`. -/
theorem force_override_ok_witness :
    (PackedTensorReadProxy.ctorDescOnly 1 ⟨DataType.F32, [2, 3, 4], [16, 4, 1]⟩
        false true 2).1.m_packed_desc = 2
    ∧ (PackedTensorWriteProxy.ctorDescOnly 1 ⟨DataType.F32, [2, 3, 4], [16, 4, 1]⟩
        false true 2).1.m_packed_desc = 2
    ∧ (PackedTensorReadProxy.ctorDescOnly 1 ⟨DataType.F32, [2, 3, 4], [16, 4, 1]⟩
        false false 2).1.m_packed_desc = 1
    ∧ (PackedTensorWriteProxy.ctorDescOnly 1 ⟨DataType.F32, [2, 3, 4], [16, 4, 1]⟩
        false false 2).1.m_packed_desc = 1
    ∧ (PackedTensorReadProxy.ctorDescOnly 1 ⟨DataType.F32, [2, 3, 4], [16, 4, 1]⟩
        true false 2).1.m_packed_desc = 2
    ∧ (PackedTensorWriteProxy.ctorDescOnly 1 ⟨DataType.F32, [2, 3, 4], [16, 4, 1]⟩
        true false 2).1.m_packed_desc = 2 :=
  force_override_ok 1 ⟨DataType.F32, [2, 3, 4], [16, 4, 1]⟩ false 2 (by decide)

/-- C8: for a source layout that is already fully packed, the
buffer-materializing constructors of both proxies issue no external calls
at all (in particular no allocation and no descriptor creation), expose
the input buffer pointer as the packed buffer pointer, and the
destructors of the resulting proxies issue no copy and no free calls
(empty teardown traces), for every override, process-wide decision,
unwinding state and copy oracle. -/
theorem aliased_passthrough_ok (udesc data handle freshDesc freshPtr : Nat)
    (d : MyTensorDesc) (g f cOk unw cOk2 : Bool) (beta : Rat)
    (hp : is_fully_packed d.dims d.strides = true) :
    PackedTensorReadProxy.ctorData udesc d data g f freshDesc freshPtr cOk
        = (some ⟨udesc, udesc, data, data⟩, [])
    ∧ PackedTensorReadProxy.dtor ⟨udesc, udesc, data, data⟩ = []
    ∧ PackedTensorWriteProxy.ctorData handle udesc d data beta g f
          freshDesc freshPtr cOk
        = (some ⟨udesc, udesc, data, data, DataType.F32, handle⟩, [])
    ∧ PackedTensorWriteProxy.dtor ⟨udesc, udesc, data, data, DataType.F32, handle⟩
          unw cOk2
        = ([], false) := by
  refine ⟨?_, ?_, ?_, ?_⟩
  · cases f <;> cases g <;>
      simp [PackedTensorReadProxy.ctorData, get_packed_desc, hp]
  · simp [PackedTensorReadProxy.dtor]
  · cases f <;> cases g <;>
      simp [PackedTensorWriteProxy.ctorData, get_packed_desc, hp]
  · simp [PackedTensorWriteProxy.dtor, PackedTensorWriteProxy.descTeardown]

/-- C8 witness: the theorem instantiated at the packed layout dims
`[2,3,4]`, strides `[12,4,1]`, source handle 1, buffer 5. -/
theorem aliased_passthrough_ok_witness :
    PackedTensorReadProxy.ctorData 1 ⟨DataType.F32, [2, 3, 4], [12, 4, 1]⟩
          5 true false 2 9 true
        = (some ⟨1, 1, 5, 5⟩, [])
    ∧ PackedTensorReadProxy.dtor ⟨1, 1, 5, 5⟩ = []
    ∧ PackedTensorWriteProxy.ctorData 7 1 ⟨DataType.F32, [2, 3, 4], [12, 4, 1]⟩
          5 1 true false 2 9 true
        = (some ⟨1, 1, 5, 5, DataType.F32, 7⟩, [])
    ∧ PackedTensorWriteProxy.dtor ⟨1, 1, 5, 5, DataType.F32, 7⟩ false true
        = ([], false) :=
  aliased_passthrough_ok 1 5 7 2 9 ⟨DataType.F32, [2, 3, 4], [12, 4, 1]⟩
    true false true false true 1 (by decide)

/-- C9: for a write proxy constructed in the owned state (non-packed
layout, packing decision on, fresh descriptor distinct from the source
handle): when accumulateWeight (beta) is non-zero the construction trace
is descriptor creation, allocation, then exactly one copy-in from the
unpacked source to the packed buffer with scale-in 1 and scale-out 0 —
which under the backend transform contract `dst = 1 * src + 0 * dst`
leaves the packed buffer equal to the unpacked contents; when beta = 0
the trace stops after the allocation: no copy-in occurs. -/
theorem write_ctor_seed_ok (handle udesc data freshDesc freshPtr : Nat)
    (d : MyTensorDesc) (beta : Rat) (g f : Bool)
    (hnp : is_fully_packed d.dims d.strides = false)
    (hfg : (f || g) = true) (hfresh : freshDesc ≠ udesc) :
    (beta ≠ 0 →
      (PackedTensorWriteProxy.ctorData handle udesc d data beta g f
          freshDesc freshPtr true).2
        = [Event.makeDesc freshDesc,
           Event.deviceAllocate
             (memory_size d.dt d.dims (get_fully_packed_strides d.dims)) freshPtr,
           Event.copyTensor 1 0 udesc data freshDesc freshPtr]
      ∧ (∀ src dst : Rat, transform_contents 1 0 src dst = src))
    ∧ (beta = 0 →
      (PackedTensorWriteProxy.ctorData handle udesc d data beta g f
          freshDesc freshPtr true).2
        = [Event.makeDesc freshDesc,
           Event.deviceAllocate
             (memory_size d.dt d.dims (get_fully_packed_strides d.dims)) freshPtr]) := by
  have hne : ¬ (udesc == freshDesc) = true := by
    simp [beq_iff_eq]
    exact fun h => hfresh h.symm
  constructor
  · intro hb
    constructor
    · simp [PackedTensorWriteProxy.ctorData, get_packed_desc, hnp, hfg, hne,
            bne_iff_ne, hb]
    · intro src dst
      simp [transform_contents]
  · intro hb
    simp [PackedTensorWriteProxy.ctorData, get_packed_desc, hnp, hfg, hne,
          bne_iff_ne, hb]

/-- C9 witness: the theorem instantiated at the non-packed layout dims
`[2,3,4]`, strides `[16,4,1]`, with beta = 1/2, evaluating the seeded
trace and the transform contract at src = 3, dst = 4. -/
theorem write_ctor_seed_ok_witness :
    (PackedTensorWriteProxy.ctorData 7 1 ⟨DataType.F32, [2, 3, 4], [16, 4, 1]⟩
        5 (1 / 2) false true 2 9 true).2
      = [Event.makeDesc 2,
         Event.deviceAllocate
           (memory_size DataType.F32 [2, 3, 4]
             (get_fully_packed_strides [2, 3, 4])) 9,
         Event.copyTensor 1 0 1 5 2 9]
    ∧ transform_contents 1 0 3 4 = 3 := by
  have h := write_ctor_seed_ok 7 1 5 2 9 ⟨DataType.F32, [2, 3, 4], [16, 4, 1]⟩
    (1 / 2) false true (by decide) (by decide) (by decide)
  exact ⟨(h.1 (by norm_num)).1, (h.1 (by norm_num)).2 3 4⟩

/-- C2: for every write proxy in the owned state, when an unwind is in
progress the destructor issues no backend copy at all — for either value
of the copy oracle — yet still frees the packed buffer and destroys the
synthetic descriptor, and no exception escapes: the teardown trace is
exactly the free followed by the descriptor destruction. -/
theorem write_dtor_unwind_ok (p : PackedTensorWriteProxy) (cOk : Bool)
    (h : p.owned) :
    PackedTensorWriteProxy.dtor p true cOk
      = ([Event.deviceFree p.m_packed_data,
          Event.destroyDesc p.m_packed_desc], false) := by
  obtain ⟨h1, h2, h3⟩ := h
  simp [PackedTensorWriteProxy.dtor, PackedTensorWriteProxy.descTeardown,
        bne_iff_ne, Ne.symm h1, h2, Ne.symm h3, h3]

/-- C2 witness: the theorem at the owned state with source descriptor 1,
packed descriptor 2, source buffer 10, packed buffer 20. -/
theorem write_dtor_unwind_ok_witness :
    PackedTensorWriteProxy.dtor ⟨1, 2, 10, 20, DataType.F32, 0⟩ true true
      = ([Event.deviceFree 20, Event.destroyDesc 2], false) :=
  write_dtor_unwind_ok ⟨1, 2, 10, 20, DataType.F32, 0⟩ true
    ⟨by decide, by decide, by decide⟩

/-- C1 (counterexample): at the owned state (source descriptor 1, packed
descriptor 2, source buffer 10, packed buffer 20), normal (non-unwinding)
teardown with a failing write-back copy lets the error escape right after
the copy call: the trace holds only the copy, and neither the free of the
packed buffer nor the destruction of the synthetic descriptor happens,
contrary to the claim. -/
theorem write_dtor_leak_counterexample :
    PackedTensorWriteProxy.dtor ⟨1, 2, 10, 20, DataType.F32, 0⟩ false false
      = ([Event.copyTensor 1 0 2 20 1 10], true)
    ∧ Event.deviceFree 20
        ∉ (PackedTensorWriteProxy.dtor ⟨1, 2, 10, 20, DataType.F32, 0⟩
            false false).1
    ∧ Event.destroyDesc 2
        ∉ (PackedTensorWriteProxy.dtor ⟨1, 2, 10, 20, DataType.F32, 0⟩
            false false).1 := by
  exact ⟨by decide, by decide, by decide⟩

/-- C1 (amended): for every write proxy in the owned state, the packed
buffer is freed and the synthetic descriptor destroyed on the branch
where the normal-teardown write-back succeeds and on the unwinding branch
where it is skipped; but when the write-back copy performed under normal
teardown itself fails, that failure escapes immediately and neither the
free nor the descriptor destruction runs: the packed buffer and the
synthetic descriptor leak. -/
theorem write_dtor_branches_ok (p : PackedTensorWriteProxy) (h : p.owned) :
    PackedTensorWriteProxy.dtor p false true
      = ([Event.copyTensor 1 0 p.m_packed_desc p.m_packed_data
            p.m_unpacked_desc p.m_unpacked_data,
          Event.deviceFree p.m_packed_data,
          Event.destroyDesc p.m_packed_desc], false)
    ∧ PackedTensorWriteProxy.dtor p false false
      = ([Event.copyTensor 1 0 p.m_packed_desc p.m_packed_data
            p.m_unpacked_desc p.m_unpacked_data], true)
    ∧ (∀ c : Bool, PackedTensorWriteProxy.dtor p true c
      = ([Event.deviceFree p.m_packed_data,
          Event.destroyDesc p.m_packed_desc], false)) := by
  obtain ⟨h1, h2, h3⟩ := h
  refine ⟨?_, ?_, fun c => ?_⟩ <;>
    simp [PackedTensorWriteProxy.dtor, PackedTensorWriteProxy.descTeardown,
          bne_iff_ne, Ne.symm h1, h2, Ne.symm h3, h3]

/-- C1 witness: the amended theorem at the owned state with source
descriptor 3, packed descriptor 4, source buffer 11, packed buffer 21. -/
theorem write_dtor_branches_ok_witness :
    PackedTensorWriteProxy.dtor ⟨3, 4, 11, 21, DataType.F32, 0⟩ false true
      = ([Event.copyTensor 1 0 4 21 3 11,
          Event.deviceFree 21, Event.destroyDesc 4], false)
    ∧ PackedTensorWriteProxy.dtor ⟨3, 4, 11, 21, DataType.F32, 0⟩ false false
      = ([Event.copyTensor 1 0 4 21 3 11], true)
    ∧ (∀ c : Bool, PackedTensorWriteProxy.dtor ⟨3, 4, 11, 21, DataType.F32, 0⟩ true c
      = ([Event.deviceFree 21, Event.destroyDesc 4], false)) :=
  write_dtor_branches_ok ⟨3, 4, 11, 21, DataType.F32, 0⟩
    ⟨by decide, by decide, by decide⟩

/-- C3 (counterexample): constructing a read proxy over the non-packed
layout dims `[2,3,4]`, strides `[16,4,1]` (source handle 1, buffer 5,
fresh descriptor 2, fresh allocation 9) with the copy-in failing:
construction throws (`none`) after descriptor creation, a 96-byte
allocation and the copy call, and NO free of the fresh allocation 9 is
issued — the buffer leaks, contrary to the claim.  The same happens for
the write proxy with accumulateWeight 1. -/
theorem ctor_copy_fail_counterexample :
    PackedTensorReadProxy.ctorData 1 ⟨DataType.F32, [2, 3, 4], [16, 4, 1]⟩
        5 false true 2 9 false
      = (none, [Event.makeDesc 2, Event.deviceAllocate 96 9,
                Event.copyTensor 1 0 1 5 2 9])
    ∧ Event.deviceFree 9
        ∉ (PackedTensorReadProxy.ctorData 1 ⟨DataType.F32, [2, 3, 4], [16, 4, 1]⟩
            5 false true 2 9 false).2
    ∧ PackedTensorWriteProxy.ctorData 7 1 ⟨DataType.F32, [2, 3, 4], [16, 4, 1]⟩
        5 1 false true 2 9 false
      = (none, [Event.makeDesc 2, Event.deviceAllocate 96 9,
                Event.copyTensor 1 0 1 5 2 9])
    ∧ Event.deviceFree 9
        ∉ (PackedTensorWriteProxy.ctorData 7 1 ⟨DataType.F32, [2, 3, 4], [16, 4, 1]⟩
            5 1 false true 2 9 false).2 := by
  exact ⟨by decide, by decide, by decide, by decide⟩

/-- C3 (amended): for both buffer-materializing constructors on the owned
path (non-packed layout, packing decision on, fresh descriptor distinct
from the source handle, and accumulateWeight non-zero for the write
proxy), a failing copy-in after a successful allocation makes the
construction propagate the error (`none`), with the allocation in the
trace but no free of any buffer: the freshly allocated packed buffer is
leaked, there being no guarded acquisition. -/
theorem ctor_copy_fail_ok (handle udesc data freshDesc freshPtr : Nat)
    (d : MyTensorDesc) (beta : Rat) (g f : Bool)
    (hnp : is_fully_packed d.dims d.strides = false)
    (hfg : (f || g) = true) (hfresh : freshDesc ≠ udesc) (hbeta : beta ≠ 0) :
    (PackedTensorReadProxy.ctorData udesc d data g f freshDesc freshPtr false).1
        = none
    ∧ Event.deviceAllocate
          (memory_size d.dt d.dims (get_fully_packed_strides d.dims)) freshPtr
        ∈ (PackedTensorReadProxy.ctorData udesc d data g f freshDesc freshPtr false).2
    ∧ (∀ q : Nat, Event.deviceFree q
        ∉ (PackedTensorReadProxy.ctorData udesc d data g f freshDesc freshPtr false).2)
    ∧ (PackedTensorWriteProxy.ctorData handle udesc d data beta g f
          freshDesc freshPtr false).1 = none
    ∧ Event.deviceAllocate
          (memory_size d.dt d.dims (get_fully_packed_strides d.dims)) freshPtr
        ∈ (PackedTensorWriteProxy.ctorData handle udesc d data beta g f
            freshDesc freshPtr false).2
    ∧ (∀ q : Nat, Event.deviceFree q
        ∉ (PackedTensorWriteProxy.ctorData handle udesc d data beta g f
            freshDesc freshPtr false).2) := by
  have hne : ¬ (udesc == freshDesc) = true := by
    simp [beq_iff_eq]
    exact fun hx => hfresh hx.symm
  have hr : PackedTensorReadProxy.ctorData udesc d data g f freshDesc freshPtr false
      = (none, [Event.makeDesc freshDesc,
                Event.deviceAllocate
                  (memory_size d.dt d.dims (get_fully_packed_strides d.dims)) freshPtr,
                Event.copyTensor 1 0 udesc data freshDesc freshPtr]) := by
    simp [PackedTensorReadProxy.ctorData, get_packed_desc, hnp, hfg, hne]
  have hw : PackedTensorWriteProxy.ctorData handle udesc d data beta g f
        freshDesc freshPtr false
      = (none, [Event.makeDesc freshDesc,
                Event.deviceAllocate
                  (memory_size d.dt d.dims (get_fully_packed_strides d.dims)) freshPtr,
                Event.copyTensor 1 0 udesc data freshDesc freshPtr]) := by
    simp [PackedTensorWriteProxy.ctorData, get_packed_desc, hnp, hfg, hne,
          bne_iff_ne, hbeta]
  refine ⟨by rw [hr], by rw [hr]; simp, fun q => by rw [hr]; simp,
          by rw [hw], by rw [hw]; simp, fun q => by rw [hw]; simp⟩

/-- C3 witness: the amended theorem instantiated at the non-packed layout
dims `[2,3,4]`, strides `[16,4,1]`, evaluating the no-free statements at
the fresh allocation 9. -/
theorem ctor_copy_fail_ok_witness :
    (PackedTensorReadProxy.ctorData 1 ⟨DataType.F32, [2, 3, 4], [16, 4, 1]⟩
        5 false true 2 9 false).1 = none
    ∧ Event.deviceAllocate
          (memory_size DataType.F32 [2, 3, 4] (get_fully_packed_strides [2, 3, 4])) 9
        ∈ (PackedTensorReadProxy.ctorData 1 ⟨DataType.F32, [2, 3, 4], [16, 4, 1]⟩
            5 false true 2 9 false).2
    ∧ Event.deviceFree 9
        ∉ (PackedTensorReadProxy.ctorData 1 ⟨DataType.F32, [2, 3, 4], [16, 4, 1]⟩
            5 false true 2 9 false).2
    ∧ (PackedTensorWriteProxy.ctorData 7 1 ⟨DataType.F32, [2, 3, 4], [16, 4, 1]⟩
        5 1 false true 2 9 false).1 = none := by
  have h := ctor_copy_fail_ok 7 1 5 2 9 ⟨DataType.F32, [2, 3, 4], [16, 4, 1]⟩
    1 false true (by decide) (by decide) (by decide) (by norm_num)
  exact ⟨h.1, h.2.1, h.2.2.1 9, h.2.2.2.1⟩

/-- C10 (counterexample): the claim says the computed byte size equals
`dims[0] * strides[0] * element_size` ONLY when the product fits in a
signed 32-bit int; at dims `[2^30]`, strides `[2^31 - 1]`, F64, the
product `2^61 - 2^30` far exceeds that range, yet after the wrap to
`-2^30`, the conversion to `size_t` and the multiplication by 8 mod
`2^64`, the computed size coincides again with the mathematical byte
count `2^64 - 2^33`. -/
theorem memory_size_fits_counterexample :
    memory_size DataType.F64 [2 ^ 30] [2 ^ 31 - 1]
      = (2 ^ 30 * (2 ^ 31 - 1) : Int).toNat * datatype_size DataType.F64
    ∧ ¬ ((2 ^ 30 * (2 ^ 31 - 1) : Int) < 2 ^ 31) := by
  exact ⟨by decide, by decide⟩

/-- C10 (amended): the allocation byte size is always computed from the
32-bit-wrapped product: when `dims[0] * strides[0]` fits below `2^31`
(dims and strides being non-negative ints) the size is exactly the
mathematical `dims[0] * strides[0] * element_size`; when the product is
at least `2^31` the wrapped 32-bit product differs from the mathematical
product, and the size is the wrapped product converted to `size_t` times
the element size mod `2^64` — which can, in rare aliasing cases, still
coincide with the mathematical byte count. -/
theorem memory_size_ok (dt : DataType) (dims strides : List Int)
    (h0 : 0 ≤ dims.headI) (h1 : 0 ≤ strides.headI)
    (hd : dims.headI < 2 ^ 31) (hs : strides.headI < 2 ^ 31) :
    (dims.headI * strides.headI < 2 ^ 31 →
      memory_size dt dims strides
        = (dims.headI * strides.headI).toNat * datatype_size dt)
    ∧ (2 ^ 31 ≤ dims.headI * strides.headI →
      wrap32 (dims.headI * strides.headI) ≠ dims.headI * strides.headI
      ∧ memory_size dt dims strides
        = intToSizeT (wrap32 (dims.headI * strides.headI))
            * datatype_size dt % 2 ^ 64) := by
  constructor
  · intro hP
    have hPge : 0 ≤ dims.headI * strides.headI := mul_nonneg h0 h1
    have hwrap : wrap32 (dims.headI * strides.headI)
        = dims.headI * strides.headI := by
      unfold wrap32
      rw [Int.emod_eq_of_lt (by omega) (by omega)]
      omega
    have hsz : intToSizeT (dims.headI * strides.headI)
        = (dims.headI * strides.headI).toNat := by
      unfold intToSizeT
      rw [Int.emod_eq_of_lt hPge (by omega)]
    have h8 : datatype_size dt ≤ 8 := by cases dt <;> decide
    have hb : (dims.headI * strides.headI).toNat * datatype_size dt
        ≤ (2 ^ 31 - 1) * 8 :=
      Nat.mul_le_mul (by omega) h8
    unfold memory_size
    rw [hwrap, hsz, Nat.mod_eq_of_lt (by omega)]
  · intro hP
    have hm : (dims.headI * strides.headI + 2 ^ 31) % 2 ^ 32 < 2 ^ 32 :=
      Int.emod_lt_of_pos _ (by norm_num)
    refine ⟨?_, rfl⟩
    unfold wrap32
    omega

/-- C10 witness: the amended theorem instantiated at the in-range layout
dims `[2,3,4]`, strides `[12,4,1]` with F32 (product 24, size 96). -/
theorem memory_size_ok_witness :
    memory_size DataType.F32 [2, 3, 4] [12, 4, 1]
      = (([2, 3, 4] : List Int).headI * ([12, 4, 1] : List Int).headI).toNat
          * datatype_size DataType.F32 :=
  (memory_size_ok DataType.F32 [2, 3, 4] [12, 4, 1]
    (by decide) (by decide) (by decide) (by decide)).1 (by decide)
